import Mathlib

/-!
# Verification of the flux-quickstart RPC wrapper

Shallow embedding of `src/index.ts` (both observed build variants: the
`getTransaction` variant and the `getSlot` variant). The external RPC client
(`@solana/web3.js` `Connection`) is modelled as a record of pure oracles, and
each query method additionally returns the list of RPC calls it issued, so
that "no network request is made" is expressible. JavaScript numbers used for
display-unit amounts are modelled as rationals; provider counts are naturals.
-/

namespace FluxQuickstart

/-! ## Address validation (external `PublicKey` constructor)

`isValidPublicKey` in the source calls `new PublicKey(address)` from the
external `@solana/web3.js` library, which base-58 decodes the string and
requires exactly 32 bytes. We embed that decoding check directly. -/

/-- The base-58 alphabet (Bitcoin alphabet) used for Solana addresses and
signatures. -/
def base58Alphabet : String :=
  "123456789ABCDEFGHJKLMNPQRSTUVWXYZabcdefghijkmnopqrstuvwxyz"

/-- Value of one base-58 digit character, `none` for a character outside the
alphabet. -/
def base58Digit (c : Char) : Option Nat :=
  let i := base58Alphabet.toList.indexOf c
  if i < 58 then some i else none

/-- Number of base-256 digits of `n`, with explicit fuel (`fuel` unfoldings of
division by 256 suffice whenever `n < 256 ^ fuel`). -/
def byteLenAux : Nat → Nat → Nat
  | 0, _ => 0
  | fuel + 1, n => if n = 0 then 0 else byteLenAux fuel (n / 256) + 1

/-- Length in bytes of the buffer produced by base-58 decoding `s`
(leading `1` characters decode to leading zero bytes), or `none` if `s`
contains a character outside the alphabet. -/
def base58DecodedLen (s : String) : Option Nat :=
  match s.toList.mapM base58Digit with
  | none => none
  | some ds =>
    let zeros := (ds.takeWhile (· == 0)).length
    let num := ds.foldl (fun acc d => acc * 58 + d) 0
    some (zeros + byteLenAux ds.length num)

/-- Predicate `isValidPublicKey` from the source: `new PublicKey(address)` succeeds
exactly when the string base-58 decodes to exactly 32 bytes. -/
def isValidPublicKey (address : String) : Bool :=
  base58DecodedLen address == some 32

/-- Modelled from the spec: syntactic validity of a transaction signature
(base-58 decoding to exactly 64 bytes). The source never checks this; the
definition exists only to exhibit concrete malformed signatures. -/
def isValidSignature (signature : String) : Bool :=
  base58DecodedLen signature == some 64

/-! ## Data model (result records of `src/index.ts`) -/

/-- Record `BalanceResult` from the source. `sol` is the display-unit amount. -/
structure BalanceResult where
  address : String
  lamports : Nat
  sol : ℚ
deriving DecidableEq

/-- Record `BlockhashResult` from the source. -/
structure BlockhashResult where
  blockhash : String
  lastValidBlockHeight : Nat
deriving DecidableEq

/-- Record `TransactionResult` from the source: `success`, `fee` and `slot` are
optional fields. -/
structure TransactionResult where
  signature : String
  found : Bool
  success : Option Bool
  fee : Option ℚ
  slot : Option Nat
deriving DecidableEq

/-- Record `SlotResult` from the source (`getSlot` build variant). The timestamp can
be fractional because the fallback is `Date.now() / 1000`. -/
structure SlotResult where
  slot : Nat
  timestamp : ℚ
deriving DecidableEq

/-- The two literal region codes of the source's `Region` type
(`type Region = 'eu' | 'us'`). -/
def regionLiterals : List String := ["eu", "us"]

/-! ## Provider replies (shapes delivered by the external RPC client) -/

/-- The `meta` object of a provider transaction reply. `err : none` models
`err: null` (no error); `err : some e` models a non-null error object.
`fee : none` models an absent fee field, which the source guards against with
`?? 0`. -/
structure TxMeta where
  err : Option String
  fee : Option Nat
deriving DecidableEq

/-- A provider transaction reply (`VersionedTransactionResponse`): a slot and
an optional `meta` object (`meta : none` models `meta: null`). -/
structure VersionedTransactionResponse where
  slot : Nat
  meta : Option TxMeta
deriving DecidableEq

/-- A provider latest-blockhash reply (`BlockhashWithExpiryBlockHeight`). -/
structure BlockhashWithExpiryBlockHeight where
  blockhash : String
  lastValidBlockHeight : Nat
deriving DecidableEq

/-- The external RPC client, modelled as a record of pure oracles: one field
per provider method the source calls, plus the wall clock (`Date.now()`, in
milliseconds) read by the `getSlot` fallback. -/
structure Connection where
  getBalance : String → Nat
  getLatestBlockhash : BlockhashWithExpiryBlockHeight
  getTransaction : String → Option VersionedTransactionResponse
  getSlot : Nat
  getBlockTime : Nat → Option Int
  nowMs : Nat

/-- One network request issued through the RPC client. -/
inductive RpcCall where
  | getBalance (pubkey : String)
  | getLatestBlockhash
  | getTransaction (signature : String)
  | getSlot
  | getBlockTime (slot : Nat)
deriving DecidableEq

/-- The error a query method can raise itself: the `Invalid address` throw in
`getBalance` (the spec's InvalidInput). -/
inductive QueryError where
  | invalidInput (message : String)
deriving DecidableEq

/-! ## Utilities and configuration -/

/-- Function `lamportsToSol` from the source: division by `LAMPORTS_PER_SOL = 1e9`,
modelled exactly over the rationals. -/
def lamportsToSol (lamports : ℚ) : ℚ :=
  lamports / 1000000000

/-- Constant `FLUXRPC_REGION` from the source:
`(process.env.FLUXRPC_REGION as Region) || 'eu'`. The environment variable is
`none` when unset; JavaScript `||` falls through exactly on the falsy string
values, i.e. the empty string. The `as Region` cast performs no runtime
check. -/
def FLUXRPC_REGION (envRegion : Option String) : String :=
  match envRegion with
  | some r => if r == "" then "eu" else r
  | none => "eu"

/-! ## Query methods

Each method returns its result (wrapped in `Except` where the source can
throw) together with the list of RPC calls it issued, in order. -/

/-- Function `getBalance` from the source: validates the address (throwing
`Invalid address: ...` otherwise, before any request), fetches the lamport
balance, and reshapes it. -/
def getBalance (conn : Connection) (address : String) :
    Except QueryError BalanceResult × List RpcCall :=
  if ! isValidPublicKey address then
    (Except.error (QueryError.invalidInput ("Invalid address: " ++ address)), [])
  else
    let lamports := conn.getBalance address
    (Except.ok { address := address, lamports := lamports,
                 sol := lamportsToSol (lamports : ℚ) },
     [RpcCall.getBalance address])

/-- Function `getBlockhash` from the source: fetches the latest blockhash and copies
both fields into a `BlockhashResult`. -/
def getBlockhash (conn : Connection) : BlockhashResult × List RpcCall :=
  let result := conn.getLatestBlockhash
  ({ blockhash := result.blockhash,
     lastValidBlockHeight := result.lastValidBlockHeight },
   [RpcCall.getLatestBlockhash])

/-- Function `getTransaction` from the source (`getTransaction` build variant): issues
the lookup unconditionally; `null` replies become `{signature, found: false}`;
otherwise `success := tx.meta?.err === null` (false when `meta` is null),
`fee := lamportsToSol(tx.meta?.fee ?? 0)`, `slot := tx.slot`. -/
def getTransaction (conn : Connection) (signature : String) :
    Except QueryError TransactionResult × List RpcCall :=
  match conn.getTransaction signature with
  | none =>
    (Except.ok { signature := signature, found := false,
                 success := none, fee := none, slot := none },
     [RpcCall.getTransaction signature])
  | some tx =>
    (Except.ok { signature := signature, found := true,
                 success := some (match tx.meta with
                   | some m => m.err == none
                   | none => false),
                 fee := some (lamportsToSol (((tx.meta.bind TxMeta.fee).getD 0 : Nat) : ℚ)),
                 slot := some tx.slot },
     [RpcCall.getTransaction signature])

/-- Function `getSlot` from the source (`getSlot` build variant): fetches the current
slot and its block time; `timestamp || Date.now() / 1000` falls back to the
wall clock when the block time is `null` or the falsy number `0`. -/
def getSlot (conn : Connection) : SlotResult × List RpcCall :=
  let slot := conn.getSlot
  let timestamp := conn.getBlockTime slot
  ({ slot := slot,
     timestamp := match timestamp with
       | some t => if t == 0 then (conn.nowMs : ℚ) / 1000 else (t : ℚ)
       | none => (conn.nowMs : ℚ) / 1000 },
   [RpcCall.getSlot, RpcCall.getBlockTime slot])

/-! ## Spec-side reading used for the refinement comparison of C2 -/

/-- Follows the spec's words: whether "the provider's reply contains an
error field" — some `meta` object is present and its `err` is non-null. -/
def replyContainsErrorField (tx : VersionedTransactionResponse) : Bool :=
  match tx.meta with
  | some m => !(m.err == none)
  | none => false

/-! ## Concrete providers for witnesses and counterexamples -/

/-- A provider reporting the balance and blockhash of the spec's end-to-end
scenarios, with nothing else to offer. -/
def demoConn : Connection where
  getBalance := fun _ => 35737443
  getLatestBlockhash :=
    { blockhash := "Zb6cPmjqh9UmdG4TP4QRVDsjFEinDzze8CY2mrgXgEv",
      lastValidBlockHeight := 375270398 }
  getTransaction := fun _ => none
  getSlot := 0
  getBlockTime := fun _ => none
  nowMs := 0

/-- A found transaction whose reply has `meta: null` (so no error field at
all, and no fee). -/
def metaNullTx : VersionedTransactionResponse where
  slot := 5
  meta := none

/-- A provider that reports every signature as found, with reply
`metaNullTx`. -/
def metaNullConn : Connection :=
  { demoConn with getTransaction := fun _ => some metaNullTx }

/-- A found transaction with a present `meta` carrying no error and a fee of
5000 lamports. -/
def okTx : VersionedTransactionResponse where
  slot := 123
  meta := some { err := none, fee := some 5000 }

/-- A provider that reports every signature as found, with reply `okTx`. -/
def okTxConn : Connection :=
  { demoConn with getTransaction := fun _ => some okTx }

/-- A provider with no block time for any slot and a wall clock of 1500 ms
(so the `getSlot` fallback is the non-integer 3/2 seconds). -/
def noBlockTimeConn : Connection :=
  { demoConn with getSlot := 7, getBlockTime := fun _ => none, nowMs := 1500 }

/-- A provider whose block time for every slot is the falsy number 0, with a
wall clock of 5000 ms. -/
def zeroBlockTimeConn : Connection :=
  { demoConn with getSlot := 9, getBlockTime := fun _ => some 0, nowMs := 5000 }

/-- A provider whose block time for every slot is 42 seconds. -/
def blockTime42Conn : Connection :=
  { demoConn with getSlot := 11, getBlockTime := fun _ => some 42 }

/-! ## Claims -/

/-- C1: for every string that is not a syntactically valid address,
`getBalance` fails with the InvalidInput error and issues no network
request — the RPC client is never called. -/
theorem getBalance_invalidInput_no_request (conn : Connection) (address : String)
    (h : isValidPublicKey address = false) :
    getBalance conn address =
      (Except.error (QueryError.invalidInput ("Invalid address: " ++ address)),
       ([] : List RpcCall)) := by
  simp [getBalance, h]

/-- Witness for C1: the malformed string `"not-an-address!"` makes
`getBalance` fail with InvalidInput while issuing no RPC call. -/
theorem getBalance_invalidInput_no_request_witness :
    getBalance demoConn "not-an-address!" =
      (Except.error (QueryError.invalidInput ("Invalid address: " ++ "not-an-address!")),
       ([] : List RpcCall)) :=
  getBalance_invalidInput_no_request demoConn "not-an-address!" (by decide)

/-- C4: for every valid address, `getBalance` returns the address unchanged,
the provider-reported lamports, and `sol = lamports / 1e9`, and issues exactly
the one balance request. -/
theorem getBalance_valid_passthrough (conn : Connection) (address : String)
    (h : isValidPublicKey address = true) :
    getBalance conn address =
      (Except.ok { address := address, lamports := conn.getBalance address,
                   sol := (conn.getBalance address : ℚ) / 1000000000 },
       [RpcCall.getBalance address]) := by
  simp [getBalance, h, lamportsToSol]

/-- Witness for C4: the spec's end-to-end scenario — address
`"DLRPZSrex3dk58mbJxfKEaxPMazchNogvZDSh26BhgRi"`, provider balance 35737443,
result `{address, lamports := 35737443, sol := 0.035737443}`. -/
theorem getBalance_valid_passthrough_witness :
    getBalance demoConn "DLRPZSrex3dk58mbJxfKEaxPMazchNogvZDSh26BhgRi" =
      (Except.ok { address := "DLRPZSrex3dk58mbJxfKEaxPMazchNogvZDSh26BhgRi",
                   lamports := 35737443, sol := (0.035737443 : ℚ) },
       [RpcCall.getBalance "DLRPZSrex3dk58mbJxfKEaxPMazchNogvZDSh26BhgRi"]) := by
  have h := getBalance_valid_passthrough demoConn
    "DLRPZSrex3dk58mbJxfKEaxPMazchNogvZDSh26BhgRi" (by decide)
  rw [h]
  norm_num [demoConn]

/-- C8: `lamportsToSol` is linear — it maps 0 to 0, maps 1,000,000,000 to 1,
and maps `2 * n` to twice the image of `n` (ratio 2:1) for every rational. -/
theorem lamportsToSol_linear :
    lamportsToSol 0 = 0 ∧ lamportsToSol 1000000000 = 1 ∧
    ∀ n : ℚ, lamportsToSol (2 * n) = 2 * lamportsToSol n := by
  refine ⟨by norm_num [lamportsToSol], by norm_num [lamportsToSol], fun n => ?_⟩
  simp only [lamportsToSol]
  ring

/-- C9: `getBlockhash` returns the provider's blockhash string and expiry
height unchanged for every provider; in particular a provider reply with
blockhash `"Zb6cPmjqh9UmdG4TP4QRVDsjFEinDzze8CY2mrgXgEv"` and height
375270398 yields exactly those two values. -/
theorem getBlockhash_verbatim :
    (∀ conn : Connection,
      (getBlockhash conn).1.blockhash = conn.getLatestBlockhash.blockhash ∧
      (getBlockhash conn).1.lastValidBlockHeight =
        conn.getLatestBlockhash.lastValidBlockHeight ∧
      (getBlockhash conn).2 = [RpcCall.getLatestBlockhash]) ∧
    (getBlockhash demoConn).1 =
      { blockhash := "Zb6cPmjqh9UmdG4TP4QRVDsjFEinDzze8CY2mrgXgEv",
        lastValidBlockHeight := 375270398 } := by
  exact ⟨fun conn => ⟨rfl, rfl, rfl⟩, rfl⟩

/-- Counterexample for C2: a found reply with `meta: null` contains no error
field, yet `getTransaction` sets `success := some false` (because
`tx.meta?.err === null` is false when `meta` is null), refuting the claimed
"success iff no error field". -/
theorem getTransaction_success_iff_cex :
    replyContainsErrorField metaNullTx = false ∧
    metaNullConn.getTransaction "sig" = some metaNullTx ∧
    (getTransaction metaNullConn "sig").1 =
      Except.ok { signature := "sig", found := true, success := some false,
                  fee := some 0, slot := some 5 } := by
  refine ⟨rfl, rfl, ?_⟩
  show Except.ok _ = _
  norm_num [metaNullTx, lamportsToSol]

/-- C2 (amended): for every found transaction, `success` is true iff the
reply's `meta` object is present and its error field is null (when `meta` is
absent, `success` is false even though no error field exists); `fee` is the
reply's fee (0 when absent) divided by 1e9; `slot` is the reply's slot. -/
theorem getTransaction_found_fields (conn : Connection) (sig : String)
    (tx : VersionedTransactionResponse) (h : conn.getTransaction sig = some tx) :
    ∃ r, (getTransaction conn sig).1 = Except.ok r ∧
      r.signature = sig ∧ r.found = true ∧
      (r.success = some true ↔ ∃ m, tx.meta = some m ∧ m.err = none) ∧
      r.fee = some (((tx.meta.bind TxMeta.fee).getD 0 : ℚ) / 1000000000) ∧
      r.slot = some tx.slot := by
  refine ⟨{ signature := sig, found := true,
            success := some (match tx.meta with
              | some m => m.err == none
              | none => false),
            fee := some (lamportsToSol (((tx.meta.bind TxMeta.fee).getD 0 : Nat) : ℚ)),
            slot := some tx.slot },
    by simp [getTransaction, h], rfl, rfl, ?_, by simp [lamportsToSol], rfl⟩
  cases hm : tx.meta with
  | none => simp [hm]
  | some m =>
    cases he : m.err with
    | none => simp [hm, he]
    | some e => simp [hm, he]

/-- Witness for C2: a provider reporting a found transaction with
`meta = {err: null, fee: 5000}` at slot 123 yields `success = some true`,
`fee = some (5000 / 1e9)`, `slot = some 123`. -/
theorem getTransaction_found_fields_witness :
    ∃ r, (getTransaction okTxConn "sigA").1 = Except.ok r ∧
      r.signature = "sigA" ∧ r.found = true ∧
      (r.success = some true ↔ ∃ m, okTx.meta = some m ∧ m.err = none) ∧
      r.fee = some (((okTx.meta.bind TxMeta.fee).getD 0 : ℚ) / 1000000000) ∧
      r.slot = some okTx.slot :=
  getTransaction_found_fields okTxConn "sigA" okTx rfl

/-- C3: optional fields of every `TransactionResult` are present iff `found`
is true (never partially populated), and a `null` provider reply yields
exactly `{signature, found := false}` with every optional field absent. -/
theorem getTransaction_optional_fields_iff_found (conn : Connection) (sig : String) :
    (∀ r, (getTransaction conn sig).1 = Except.ok r →
      (r.found = true ↔ r.success.isSome = true) ∧
      (r.found = true ↔ r.fee.isSome = true) ∧
      (r.found = true ↔ r.slot.isSome = true)) ∧
    (conn.getTransaction sig = none →
      (getTransaction conn sig).1 =
        Except.ok { signature := sig, found := false,
                    success := none, fee := none, slot := none }) := by
  constructor
  · intro r hr
    cases h : conn.getTransaction sig <;>
      simp [getTransaction, h] at hr <;> simp [← hr]
  · intro h
    simp [getTransaction, h]

/-- Witness for C3: a provider returning `null` for signature `"zzz"` yields
exactly the not-found record with no optional field present. -/
theorem getTransaction_optional_fields_iff_found_witness :
    (getTransaction demoConn "zzz").1 =
      Except.ok { signature := "zzz", found := false,
                  success := none, fee := none, slot := none } :=
  (getTransaction_optional_fields_iff_found demoConn "zzz").2 rfl

/-- Counterexample for C7: the malformed signature `"not-base58!"` does not
make `getTransaction` fail with InvalidInput before the request — one
network request is issued and a normal result is returned. -/
theorem getTransaction_no_validation_cex :
    isValidSignature "not-base58!" = false ∧
    (getTransaction demoConn "not-base58!").2 =
      [RpcCall.getTransaction "not-base58!"] ∧
    (getTransaction demoConn "not-base58!").1 =
      Except.ok { signature := "not-base58!", found := false,
                  success := none, fee := none, slot := none } := by
  exact ⟨by decide, rfl, rfl⟩

/-- C7 (amended): `getTransaction` performs no signature validation — for
every signature string, malformed or not, and every provider, it issues
exactly one lookup request and returns a normal `TransactionResult`, never an
InvalidInput failure. -/
theorem getTransaction_always_requests (conn : Connection) (sig : String) :
    (getTransaction conn sig).2 = [RpcCall.getTransaction sig] ∧
    ∃ r, (getTransaction conn sig).1 = Except.ok r := by
  cases h : conn.getTransaction sig <;> simp [getTransaction, h]

/-- C10: for every found transaction whose reply carries no fee (`meta`
absent, or `fee` field absent from `meta`), `getTransaction` still populates
the fee field, with value 0 display units. -/
theorem getTransaction_missing_fee_zero (conn : Connection) (sig : String)
    (tx : VersionedTransactionResponse) (h : conn.getTransaction sig = some tx)
    (hfee : tx.meta = none ∨ ∃ m, tx.meta = some m ∧ m.fee = none) :
    ∃ r, (getTransaction conn sig).1 = Except.ok r ∧
      r.found = true ∧ r.fee = some 0 := by
  refine ⟨{ signature := sig, found := true,
            success := some (match tx.meta with
              | some m => m.err == none
              | none => false),
            fee := some (lamportsToSol (((tx.meta.bind TxMeta.fee).getD 0 : Nat) : ℚ)),
            slot := some tx.slot },
    by simp [getTransaction, h], rfl, ?_⟩
  show some (lamportsToSol _) = some 0
  rcases hfee with hm | ⟨m, hm, hf⟩
  · simp [hm, lamportsToSol]
  · simp [hm, hf, lamportsToSol]

/-- Witness for C10: a provider reply with `meta: null` yields a found
result whose fee is `some 0`. -/
theorem getTransaction_missing_fee_zero_witness :
    ∃ r, (getTransaction metaNullConn "sigB").1 = Except.ok r ∧
      r.found = true ∧ r.fee = some 0 :=
  getTransaction_missing_fee_zero metaNullConn "sigB" metaNullTx rfl (Or.inl rfl)

/-- Counterexample for C5: with no provider block time and a wall clock of
1500 ms, the fallback timestamp is 3/2 — not an integer number of Unix
seconds; and with a provider block time of 0 (a timestamp the provider does
have), the falsy-value fallback is still taken, yielding 5 instead of 0. -/
theorem getSlot_integer_timestamp_cex :
    noBlockTimeConn.getBlockTime noBlockTimeConn.getSlot = none ∧
    ((getSlot noBlockTimeConn).1.timestamp).den = 2 ∧
    zeroBlockTimeConn.getBlockTime zeroBlockTimeConn.getSlot = some 0 ∧
    (getSlot zeroBlockTimeConn).1.timestamp = 5 := by
  refine ⟨rfl, ?_, rfl, ?_⟩
  · show ((1500 : ℚ) / 1000).den = 2
    norm_num
  · show (5000 : ℚ) / 1000 = 5
    norm_num

/-- C5 (amended): every `SlotResult` carries the provider's current slot (a
non-negative integer); the timestamp is the provider's block time whenever
that is present and nonzero, and falls back to the current wall clock in
milliseconds divided by 1000 — which need not be an integer — exactly when
the block time is absent or the falsy number 0. -/
theorem getSlot_timestamp_fallback (conn : Connection) :
    (getSlot conn).1.slot = conn.getSlot ∧
    (∀ t : Int, conn.getBlockTime conn.getSlot = some t → t ≠ 0 →
      (getSlot conn).1.timestamp = (t : ℚ)) ∧
    ((conn.getBlockTime conn.getSlot = none ∨
        conn.getBlockTime conn.getSlot = some 0) →
      (getSlot conn).1.timestamp = (conn.nowMs : ℚ) / 1000) := by
  refine ⟨rfl, ?_, ?_⟩
  · intro t ht hnz
    simp [getSlot, ht, hnz]
  · rintro (h | h) <;> simp [getSlot, h]

/-- Witness for C5: a provider block time of 42 seconds is returned as the
timestamp unchanged. -/
theorem getSlot_timestamp_fallback_witness :
    (getSlot blockTime42Conn).1.timestamp = ((42 : Int) : ℚ) :=
  (getSlot_timestamp_fallback blockTime42Conn).2.1 42 rfl (by decide)

/-- Counterexample for C6: the unrecognized region value `"mars"` does not
fall back to the default region — it is used verbatim, and it is neither of
the two accepted literal region codes. -/
theorem region_unrecognized_cex :
    FLUXRPC_REGION (some "mars") = "mars" ∧
    regionLiterals.contains (FLUXRPC_REGION (some "mars")) = false := by
  exact ⟨rfl, by decide⟩

/-- C6 (amended): an absent region variable and the empty string both fall
back to the default region `"eu"`; every other value — the accepted literals
`"eu"`/`"us"` but also any unrecognized value — is used verbatim, with no
fallback. -/
theorem region_resolution :
    FLUXRPC_REGION none = "eu" ∧ FLUXRPC_REGION (some "") = "eu" ∧
    ∀ r : String, r ≠ "" → FLUXRPC_REGION (some r) = r := by
  refine ⟨rfl, rfl, fun r hr => ?_⟩
  have : (r == "") = false := by
    simpa using hr
  simp [FLUXRPC_REGION, this]

/-- Witness for C6: the accepted literal `"us"` resolves to itself. -/
theorem region_resolution_witness : FLUXRPC_REGION (some "us") = "us" :=
  region_resolution.2.2 "us" (by decide)

end FluxQuickstart
